import Mathlib

/-!
# Verification of the rust-websocket core (frame codec, sender, server accept)

Shallow embedding of `src/ws/util/header.rs`, `src/ws/message/send.rs` and
`src/server/mod.rs`.  Byte streams are modelled as `List Nat` (each element a
`u8` value), blocking reads that hit the end of the available bytes are
modelled as the transient `IoError`, and the mutable `ReaderState` is passed
and returned explicitly.
-/

deriving instance DecidableEq for Except

namespace WS

/-- Error type: the subset of `WebSocketError` the embedded code produces.
Transient I/O failures (short reads) carry no payload we need. -/
inductive WebSocketError where
  | IoError : WebSocketError
  | DataFrameError (msg : String) : WebSocketError
  | ProtocolError (msg : String) : WebSocketError
deriving DecidableEq, Repr

/-- `DataFrameFlags` from `header.rs`: a bitflags struct whose only defined
bits are FIN (0x80), RSV1 (0x40), RSV2 (0x20), RSV3 (0x10).  A bitflags value
can only hold defined bits, so it is exactly four booleans. -/
structure DataFrameFlags where
  fin : Bool
  rsv1 : Bool
  rsv2 : Bool
  rsv3 : Bool
deriving DecidableEq, Repr

namespace DataFrameFlags

/-- `flags.bits`: the raw `u8` of a bitflags value. -/
def bits (f : DataFrameFlags) : Nat :=
  (cond f.fin 0x80 0) ||| (cond f.rsv1 0x40 0) ||| (cond f.rsv2 0x20 0) |||
    (cond f.rsv3 0x10 0)

/-- `DataFrameFlags::from_bits_truncate`: keep exactly the defined bits. -/
def fromBitsTruncate (b : Nat) : DataFrameFlags :=
  ⟨b.testBit 7, b.testBit 6, b.testBit 5, b.testBit 4⟩

end DataFrameFlags

/-- `DataFrameHeader` from `header.rs`.  `mask : Option [u8; 4]` is modelled
as an optional list (length 4 in well-formed headers); `len : u64` as `Nat`
(< 2^64 in well-formed headers). -/
structure DataFrameHeader where
  flags : DataFrameFlags
  opcode : Nat
  mask : Option (List Nat)
  len : Nat
deriving DecidableEq, Repr

/-- `ReaderState` from `header.rs`, field for field. -/
structure ReaderState where
  flags : Option DataFrameFlags
  opcode : Option Nat
  has_mask : Bool
  mask : List Nat
  raw_len : List Nat
  len_byte : Option Nat
  len : Option Nat
deriving DecidableEq, Repr

namespace ReaderState

/-- `ReaderState::new` (and `reset`, which restores exactly this state). -/
def new : ReaderState :=
  { flags := none, opcode := none, has_mask := false, mask := [],
    raw_len := [], len_byte := none, len := none }

end ReaderState

/-- `byteorder` big-endian 16-bit write: `write_u16::<BigEndian>`. -/
def writeU16BE (n : Nat) : List Nat :=
  [n / 256 % 256, n % 256]

/-- `byteorder` big-endian 64-bit write: `write_u64::<BigEndian>`. -/
def writeU64BE (n : Nat) : List Nat :=
  [n / 2 ^ 56 % 256, n / 2 ^ 48 % 256, n / 2 ^ 40 % 256, n / 2 ^ 32 % 256,
    n / 2 ^ 24 % 256, n / 2 ^ 16 % 256, n / 2 ^ 8 % 256, n % 256]

/-- `BigEndian::read_u16` on the first two bytes of a buffer. -/
def readU16BE (l : List Nat) : Nat :=
  256 * l.getD 0 0 + l.getD 1 0

/-- `BigEndian::read_u64` on the first eight bytes of a buffer. -/
def readU64BE (l : List Nat) : Nat :=
  2 ^ 56 * l.getD 0 0 + 2 ^ 48 * l.getD 1 0 + 2 ^ 40 * l.getD 2 0 +
    2 ^ 32 * l.getD 3 0 + 2 ^ 24 * l.getD 4 0 + 2 ^ 16 * l.getD 5 0 +
    2 ^ 8 * l.getD 6 0 + l.getD 7 0

/-- `write_header` from `header.rs`.  The writer is a growing byte vector, so
success returns the bytes written; the two validation errors fire before any
byte is emitted, exactly as in the source. -/
def write_header (header : DataFrameHeader) : Except WebSocketError (List Nat) :=
  if header.opcode > 0xF then
    .error (.DataFrameError "Invalid data frame opcode")
  else if header.opcode ≥ 8 ∧ header.len ≥ 126 then
    .error (.DataFrameError "Control frame length too long")
  else
    -- Write 'FIN', 'RSV1', 'RSV2', 'RSV3' and 'opcode'
    let b0 := header.flags.bits ||| header.opcode
    -- Write the 'MASK' bit and the 'Payload len'
    let b1 := (if header.mask.isSome then 0x80 else 0x00) |||
      (if header.len ≤ 125 then header.len
       else if header.len ≤ 65535 then 126
       else 127)
    -- Write 'Extended payload length' (`as u16` truncates, hence the `%`)
    let ext :=
      if header.len ≥ 126 ∧ header.len ≤ 65535 then writeU16BE (header.len % 2 ^ 16)
      else if header.len > 65535 then writeU64BE (header.len % 2 ^ 64)
      else []
    -- Write 'Masking-key'
    let maskBytes := match header.mask with
      | some m => m
      | none => []
    .ok (b0 :: b1 :: ext ++ maskBytes)

/-- The `while buf.len() < target { buf.push(read_u8()?) }` loops of
`read_header`: fill `buf` up to `target` bytes from `input`.  On exhaustion
(the modelled transient I/O error) the partial buffer is kept. -/
def fillBuf : List Nat → Nat → List Nat → Except (List Nat) (List Nat × List Nat)
  | buf, target, [] =>
    if buf.length < target then .error buf else .ok (buf, [])
  | buf, target, b :: rest =>
    if buf.length < target then fillBuf (buf ++ [b]) target rest
    else .ok (buf, b :: rest)

/-- Result of one `read_header` call: the returned value, the `ReaderState`
after the call, and the bytes left unconsumed in the stream. -/
structure ReadOutcome where
  result : Except WebSocketError DataFrameHeader
  state : ReaderState
  rest : List Nat
deriving DecidableEq, Repr

/-- `read_header` from `header.rs`, translated statement by statement.  The
source's early `return`s keep the state accumulated so far (transient I/O
errors) or call `reset` first (semantic errors); on success `reset` runs
after the header value is built.  `Option::unwrap` on fields that the control
flow has always set is modelled by `getD`. -/
def read_header (input : List Nat) (s0 : ReaderState) : ReadOutcome :=
  -- If the flag entry is None, then read the first byte of the header
  let step1 : Except ReadOutcome (ReaderState × List Nat) :=
    if s0.flags.isNone then
      match input with
      | [] => .error ⟨.error .IoError, s0, []⟩
      | b :: rest =>
        .ok ({ s0 with flags := some (DataFrameFlags.fromBitsTruncate b),
                       opcode := some (b &&& 0x0F) }, rest)
    else
      .ok (s0, input)
  match step1 with
  | .error out => out
  | .ok (s1, input1) =>
    -- Save the length byte (read unconditionally, as in the source)
    match input1 with
    | [] => ⟨.error .IoError, s1, []⟩
    | byte :: input2 =>
      let s2 := { s1 with len_byte := some byte,
                          has_mask := byte &&& 0x80 == 0x80 }
      -- Using the length byte, determine the length of the payload
      let step3 : Except ReadOutcome (ReaderState × List Nat) :=
        if s2.len.isNone then
          if byte &&& 0x7F ≤ 125 then
            .ok ({ s2 with len := some (byte &&& 0x7F) }, input2)
          else if byte &&& 0x7F = 126 then
            match fillBuf s2.raw_len 2 input2 with
            | .error buf => .error ⟨.error .IoError, { s2 with raw_len := buf }, []⟩
            | .ok (buf, rest) =>
              let len := readU16BE buf
              if len ≤ 125 then
                .error ⟨.error (.DataFrameError "Invalid data frame length"),
                        ReaderState.new, rest⟩
              else
                .ok ({ s2 with raw_len := buf, len := some len }, rest)
          else
            match fillBuf s2.raw_len 8 input2 with
            | .error buf => .error ⟨.error .IoError, { s2 with raw_len := buf }, []⟩
            | .ok (buf, rest) =>
              let len := readU64BE buf
              if len ≤ 65535 then
                .error ⟨.error (.DataFrameError "Invalid data frame length"),
                        ReaderState.new, rest⟩
              else
                .ok ({ s2 with raw_len := buf, len := some len }, rest)
        else
          .ok (s2, input2)
      match step3 with
      | .error out => out
      | .ok (s3, input3) =>
        -- Check for invalid state
        if s3.opcode.getD 0 ≥ 8 ∧ s3.len.getD 0 ≥ 126 then
          ⟨.error (.DataFrameError "Control frame length too long"),
            ReaderState.new, input3⟩
        else if s3.opcode.getD 0 ≥ 8 ∧
            ¬(s3.flags.getD ⟨false, false, false, false⟩).fin then
          ⟨.error (.ProtocolError "Illegal fragmented control frame"),
            ReaderState.new, input3⟩
        else
          -- Get the mask if one exists, making sure to have exactly 4 bytes
          let step5 : Except ReadOutcome (ReaderState × List Nat) :=
            if s3.has_mask then
              match fillBuf s3.mask 4 input3 with
              | .error buf => .error ⟨.error .IoError, { s3 with mask := buf }, []⟩
              | .ok (buf, rest) => .ok ({ s3 with mask := buf }, rest)
            else
              .ok (s3, input3)
          match step5 with
          | .error out => out
          | .ok (s4, input4) =>
            -- Return the final state, then reset
            ⟨.ok { flags := s4.flags.getD ⟨false, false, false, false⟩,
                   opcode := s4.opcode.getD 0,
                   mask := if s4.has_mask then some (s4.mask.take 4) else none,
                   len := s4.len.getD 0 },
              ReaderState.new, input4⟩

/-!
## Embedding of `src/ws/message/send.rs`

`WebSocketOpcode`, `WebSocketMessage` and `WebSocketDataFrame` live in the
sibling `dataframe`/`message` modules of the repository; only the fields and
constructors `send.rs` touches are modelled.  `Text` payloads are byte lists
(`payload.clone().into_bytes()`).  The random `gen_key()` is an injected
parameter `key`, and `WebSocketDataFrameLength::new(data.len())` is modelled
as the plain length.
-/

inductive WebSocketOpcode where
  | Continuation | Text | Binary | Close | Ping | Pong
deriving DecidableEq, Repr

inductive WebSocketMessage where
  | Text (payload : List Nat)
  | Binary (payload : List Nat)
  | Close
  | Ping
  | Pong
deriving DecidableEq, Repr

structure WebSocketDataFrame where
  finished : Bool
  reserved : List Bool
  opcode : WebSocketOpcode
  mask : Option (List Nat)
  length : Nat
  data : List Nat
deriving DecidableEq, Repr

/-- Modelled from the spec: `mask_data` (in the repository's `ws/message/mask`
module, not present under `src/`) applies the masking transform
`out[i] = in[i] XOR key[i mod 4]`. -/
def mask_data (key : List Nat) (data : List Nat) : List Nat :=
  (List.range data.length).map fun i => data.getD i 0 ^^^ key.getD (i % 4) 0

/-- The payload bytes of a message, as extracted by the `match` in
`message_to_dataframe` (control messages carry no payload there). -/
def messagePayload : WebSocketMessage → List Nat
  | .Text payload => payload
  | .Binary payload => payload
  | .Close => []
  | .Ping => []
  | .Pong => []

/-- The opcode chosen by the `match` in `message_to_dataframe`. -/
def messageOpcode : WebSocketMessage → WebSocketOpcode
  | .Text _ => .Text
  | .Binary _ => .Binary
  | .Close => .Close
  | .Ping => .Ping
  | .Pong => .Pong

/-- `message_to_dataframe` from `send.rs`, with the random `gen_key()`
injected as `key`.  Note the source masks `data` *before* storing it in the
frame when `mask` is set. -/
def message_to_dataframe (message : WebSocketMessage) (mask : Bool)
    (finished : Bool) (key : List Nat) : WebSocketDataFrame :=
  let masking_key := if mask then some key else none
  let opcode := messageOpcode message
  let data0 := messagePayload message
  let data := if mask then mask_data key data0 else data0
  { finished := finished,
    reserved := [false, false, false],
    opcode := opcode,
    mask := masking_key,
    length := data.length,
    data := data }

/-- `WebSocketSender::send_message`: one frame, `finished = true`, the
message's own opcode. -/
def send_message (message : WebSocketMessage) (mask : Bool)
    (key : List Nat) : WebSocketDataFrame :=
  message_to_dataframe message mask true key

/-- One `WebSocketFragmentSerializer::send_fragment` call: the serializer
state is its `started` flag; returns the frame written and the new flag. -/
def send_fragment (started : Bool) (message : WebSocketMessage) (mask : Bool)
    (key : List Nat) : WebSocketDataFrame × Bool :=
  let dataframe := message_to_dataframe message mask false key
  if started then ({ dataframe with opcode := .Continuation }, started)
  else (dataframe, true)

/-- One `WebSocketFragmentSerializer::finish` call. -/
def finish (started : Bool) (message : WebSocketMessage) (mask : Bool)
    (key : List Nat) : WebSocketDataFrame × Bool :=
  let dataframe := message_to_dataframe message mask true key
  if started then ({ dataframe with opcode := .Continuation }, false)
  else (dataframe, started)

/-- Run a sequence of `send_fragment` calls, threading the `started` flag. -/
def run_send_fragments (started : Bool) (mask : Bool) (key : List Nat) :
    List WebSocketMessage → List WebSocketDataFrame × Bool
  | [] => ([], started)
  | m :: ms =>
    let fr := send_fragment started m mask key
    let rec' := run_send_fragments fr.2 mask key ms
    (fr.1 :: rec'.1, rec'.2)

/-- A whole fragmenting session on a fresh serializer:
`send_fragment(m)` for each `m` in `ms`, then `finish(final)`. -/
def fragment_session (mask : Bool) (key : List Nat)
    (ms : List WebSocketMessage) (final : WebSocketMessage) :
    List WebSocketDataFrame :=
  let run := run_send_fragments false mask key ms
  run.1 ++ [(finish run.2 final mask key).1]

/-!
## Embedding of `src/server/mod.rs`

`Server::accept` chains three fallible stages: `TcpListener::accept`,
`SslStream::accept` (secure flavour only) and `stream.into_ws()`.  The
stages' outcomes are injected as parameters (`T` TCP streams, `S` wrapped
streams, `P` parsed requests, `E` errors after the source's `.into()`
conversions, `U` upgrades).  `Iterator::next` is `self.accept().ok()`, and a
`for` loop over the iterator keeps calling `next` until it yields `None`.
-/

structure InvalidConnection (S P E : Type) where
  stream : Option S
  parsed : Option P
  error : E
deriving DecidableEq

/-- `Server::<SslContext>::accept`, stage for stage. -/
def accept {T S P E U : Type} (tcpAccept : Except E T)
    (sslAccept : T → Except E S)
    (intoWs : S → Except (S × Option P × E) U) :
    Except (InvalidConnection S P E) U :=
  match tcpAccept with
  | .error e => .error { stream := none, parsed := none, error := e }
  | .ok stream =>
    match sslAccept stream with
    | .error err => .error { stream := none, parsed := none, error := err }
    | .ok stream =>
      match intoWs stream with
      | .ok u => .ok u
      | .error (s, r, e) => .error { stream := some s, parsed := r, error := e }

/-- `Server::<NoSslContext>::accept`: no TLS stage. -/
def accept_plain {T P E U : Type} (tcpAccept : Except E T)
    (intoWs : T → Except (T × Option P × E) U) :
    Except (InvalidConnection T P E) U :=
  match tcpAccept with
  | .error e => .error { stream := none, parsed := none, error := e }
  | .ok stream =>
    match intoWs stream with
    | .ok u => .ok u
    | .error (s, r, e) => .error { stream := some s, parsed := r, error := e }

/-- `Iterator::next` for `Server`: `self.accept().ok()`. -/
def server_next {T S P E U : Type} (tcpAccept : Except E T)
    (sslAccept : T → Except E S)
    (intoWs : S → Except (S × Option P × E) U) : Option U :=
  (accept tcpAccept sslAccept intoWs).toOption

/-- A `for` loop over the server: consume a list of successive `accept`
outcomes, stopping at the first `None` from `next`. -/
def iterate_server {I U : Type} : List (Except I U) → List U
  | [] => []
  | a :: rest =>
    match a.toOption with
    | some u => u :: iterate_server rest
    | none => []

/-! ## Helper lemmas about the byte-level primitives -/

lemma byte0_and15 (f : DataFrameFlags) : ∀ op, op < 16 → (f.bits ||| op) &&& 0x0F = op := by
  obtain ⟨a, b, c, d⟩ := f
  cases a <;> cases b <;> cases c <;> cases d <;> decide

lemma byte0_truncate (f : DataFrameFlags) :
    ∀ op, op < 16 → DataFrameFlags.fromBitsTruncate (f.bits ||| op) = f := by
  obtain ⟨a, b, c, d⟩ := f
  cases a <;> cases b <;> cases c <;> cases d <;> decide

lemma byte0_lor_eq_add (f : DataFrameFlags) : ∀ op, op < 16 → f.bits ||| op = f.bits + op := by
  obtain ⟨a, b, c, d⟩ := f
  cases a <;> cases b <;> cases c <;> cases d <;> decide

lemma lor128_and128 : ∀ ind, ind < 128 → ((128 ||| ind) &&& 0x80 == 0x80) = true := by decide

lemma lor128_and127 : ∀ ind, ind < 128 → (128 ||| ind) &&& 0x7F = ind := by decide

lemma lor128_eq_add : ∀ ind, ind < 128 → 128 ||| ind = 128 + ind := by decide

lemma and128_small : ∀ ind, ind < 128 → ((ind &&& 0x80 == 0x80) : Bool) = false := by decide

lemma and127_small : ∀ ind, ind < 128 → ind &&& 0x7F = ind := by decide

lemma zero_lor_nat (n : Nat) : 0 ||| n = n := Nat.zero_or n

lemma readU16BE_writeU16BE (n : Nat) (h : n < 2 ^ 16) : readU16BE (writeU16BE n) = n := by
  simp only [readU16BE, writeU16BE, List.getD_cons_zero, List.getD_cons_succ]
  omega

lemma readU64BE_writeU64BE (n : Nat) (h : n < 2 ^ 64) : readU64BE (writeU64BE n) = n := by
  simp only [readU64BE, writeU64BE, List.getD_cons_zero, List.getD_cons_succ]
  omega

lemma fillBuf_two (e1 e2 : Nat) (rest : List Nat) :
    fillBuf [] 2 (e1 :: e2 :: rest) = .ok ([e1, e2], rest) := by
  cases rest <;> simp [fillBuf]

lemma fillBuf_four (m0 m1 m2 m3 : Nat) (rest : List Nat) :
    fillBuf [] 4 (m0 :: m1 :: m2 :: m3 :: rest) = .ok ([m0, m1, m2, m3], rest) := by
  cases rest <;> simp [fillBuf]

lemma fillBuf_eight (e1 e2 e3 e4 e5 e6 e7 e8 : Nat) (rest : List Nat) :
    fillBuf [] 8 (e1 :: e2 :: e3 :: e4 :: e5 :: e6 :: e7 :: e8 :: rest) =
      .ok ([e1, e2, e3, e4, e5, e6, e7, e8], rest) := by
  cases rest <;> simp [fillBuf]

lemma and_126_127 : (126 : Nat) &&& 0x7F = 126 := by decide
lemma and_127_127 : (127 : Nat) &&& 0x7F = 127 := by decide
lemma and_254_127 : (254 : Nat) &&& 0x7F = 126 := by decide
lemma and_255_127 : (255 : Nat) &&& 0x7F = 127 := by decide
lemma mask_126 : ((126 : Nat) &&& 0x80 == 0x80) = false := by decide
lemma mask_127 : ((127 : Nat) &&& 0x80 == 0x80) = false := by decide
lemma mask_254 : ((254 : Nat) &&& 0x80 == 0x80) = true := by decide
lemma mask_255 : ((255 : Nat) &&& 0x80 == 0x80) = true := by decide
lemma lor_128_126 : (128 : Nat) ||| 126 = 254 := by decide
lemma lor_128_127 : (128 : Nat) ||| 127 = 255 := by decide

lemma exists_list_four {α : Type} {l : List α} (h : l.length = 4) :
    ∃ a b c d, l = [a, b, c, d] := by
  rcases l with _ | ⟨a, _ | ⟨b, _ | ⟨c, _ | ⟨d, _ | ⟨e, t⟩⟩⟩⟩⟩ <;>
    simp only [List.length_cons, List.length_nil] at h <;> try omega
  exact ⟨a, b, c, d, rfl⟩

lemma run_send_fragments_started (mask : Bool) (key : List Nat) :
    ∀ ms, run_send_fragments true mask key ms =
      (ms.map fun mi =>
        { message_to_dataframe mi mask false key with
            opcode := WebSocketOpcode.Continuation }, true)
  | [] => by simp [run_send_fragments]
  | m :: ms => by
    simp [run_send_fragments, send_fragment,
      run_send_fragments_started mask key ms]

/-! ## C1: codec round trip -/

/-- C1.  Codec round-trip: for every header `h` with opcode ≤ 15, any flags,
any optional 4-byte mask, and payload length up to `2^63 - 1` (and, when the
opcode is a control opcode ≥ 8, length ≤ 125 and FIN set), `write_header h`
succeeds and `read_header` on the produced bytes, starting from a fresh
`ReaderState`, consumes them all and returns exactly `h`, leaving the state
reset. -/
theorem C1_codec_roundtrip (h : DataFrameHeader)
    (hop : h.opcode ≤ 15)
    (hlen : h.len ≤ 2 ^ 63 - 1)
    (hmask : ∀ m, h.mask = some m → m.length = 4)
    (hctl : 8 ≤ h.opcode → h.len ≤ 125 ∧ h.flags.fin = true) :
    ∃ bytes, write_header h = .ok bytes ∧
      read_header bytes ReaderState.new = ⟨.ok h, ReaderState.new, []⟩ := by
  obtain ⟨f, op, mask, len⟩ := h
  dsimp only at hop hlen hmask hctl
  have hwctl : ¬(8 ≤ op ∧ 126 ≤ len) := fun ⟨h8, h126⟩ => by
    have := (hctl h8).1; omega
  rcases mask with _ | m
  · -- unmasked
    rcases Nat.lt_or_ge len 126 with hsmall | hbig1
    · -- len ≤ 125
      refine ⟨[f.bits ||| op, len], ?_, ?_⟩
      · simp [write_header, Nat.not_lt.mpr hop, hwctl,
          (show len ≤ 125 by omega),
          (show ¬(126 ≤ len ∧ len ≤ 65535) by omega),
          (show ¬(65535 < len) by omega), zero_lor_nat]
      · by_cases hop8 : 8 ≤ op
        · obtain ⟨hle, hfin⟩ := hctl hop8
          simp [read_header, ReaderState.new,
            byte0_and15 f op (by omega), byte0_truncate f op (by omega),
            and127_small len (by omega), and128_small len (by omega),
            (show len ≤ 125 by omega), hfin, (show ¬(126 ≤ len) by omega)]
        · simp [read_header, ReaderState.new,
            byte0_and15 f op (by omega), byte0_truncate f op (by omega),
            and127_small len (by omega), and128_small len (by omega),
            (show len ≤ 125 by omega), hop8]
    · have hop8 : op < 8 := by
        rcases Nat.lt_or_ge op 8 with h8 | h8
        · exact h8
        · have := (hctl h8).1; omega
      rcases Nat.lt_or_ge len 65536 with hmid | hbig
      · -- 126 ≤ len ≤ 65535
        have hv16 : readU16BE [len / 256 % 256, len % 256] = len := by
          simp [readU16BE]; omega
        refine ⟨[f.bits ||| op, 126, len / 256 % 256, len % 256], ?_, ?_⟩
        · simp [write_header, Nat.not_lt.mpr hop, Nat.not_le.mpr hop8, writeU16BE,
            (show ¬len ≤ 125 by omega), (show len ≤ 65535 by omega),
            (show 126 ≤ len ∧ len ≤ 65535 by omega),
            (show len % 65536 = len from Nat.mod_eq_of_lt (by omega)),
            zero_lor_nat]
        · simp [read_header, ReaderState.new, fillBuf_two, hv16,
            byte0_and15 f op (by omega), byte0_truncate f op (by omega),
            and_126_127, mask_126,
            (show ¬len ≤ 125 by omega), Nat.not_le.mpr hop8]
      · -- len ≥ 65536
        have hv64 : readU64BE [len / 72057594037927936 % 256,
            len / 281474976710656 % 256, len / 1099511627776 % 256,
            len / 4294967296 % 256, len / 16777216 % 256, len / 65536 % 256,
            len / 256 % 256, len % 256] = len := by
          simp [readU64BE]; omega
        refine ⟨[f.bits ||| op, 127, len / 2 ^ 56 % 256, len / 2 ^ 48 % 256,
            len / 2 ^ 40 % 256, len / 2 ^ 32 % 256, len / 2 ^ 24 % 256,
            len / 2 ^ 16 % 256, len / 2 ^ 8 % 256, len % 256], ?_, ?_⟩
        · simp [write_header, Nat.not_lt.mpr hop, Nat.not_le.mpr hop8, writeU64BE,
            (show ¬len ≤ 125 by omega), (show ¬len ≤ 65535 by omega),
            (show ¬(126 ≤ len ∧ len ≤ 65535) by omega),
            (show 65535 < len by omega),
            (show len % 18446744073709551616 = len from Nat.mod_eq_of_lt (by omega)),
            zero_lor_nat]
        · simp [read_header, ReaderState.new, fillBuf_eight, hv64,
            byte0_and15 f op (by omega), byte0_truncate f op (by omega),
            and_127_127, mask_127,
            (show ¬len ≤ 65535 by omega), Nat.not_le.mpr hop8]
  · -- masked
    obtain ⟨m0, m1, m2, m3, rfl⟩ := exists_list_four (hmask m rfl)
    rcases Nat.lt_or_ge len 126 with hsmall | hbig1
    · refine ⟨[f.bits ||| op, 128 ||| len, m0, m1, m2, m3], ?_, ?_⟩
      · simp [write_header, Nat.not_lt.mpr hop, hwctl,
          (show len ≤ 125 by omega),
          (show ¬(126 ≤ len ∧ len ≤ 65535) by omega),
          (show ¬(65535 < len) by omega)]
      · by_cases hop8 : 8 ≤ op
        · obtain ⟨hle, hfin⟩ := hctl hop8
          simp [read_header, ReaderState.new, fillBuf_four,
            byte0_and15 f op (by omega), byte0_truncate f op (by omega),
            lor128_and127 len (by omega), lor128_and128 len (by omega),
            (show len ≤ 125 by omega), hfin, (show ¬(126 ≤ len) by omega)]
        · simp [read_header, ReaderState.new, fillBuf_four,
            byte0_and15 f op (by omega), byte0_truncate f op (by omega),
            lor128_and127 len (by omega), lor128_and128 len (by omega),
            (show len ≤ 125 by omega), hop8]
    · have hop8 : op < 8 := by
        rcases Nat.lt_or_ge op 8 with h8 | h8
        · exact h8
        · have := (hctl h8).1; omega
      rcases Nat.lt_or_ge len 65536 with hmid | hbig
      · have hv16 : readU16BE [len / 256 % 256, len % 256] = len := by
          simp [readU16BE]; omega
        refine ⟨[f.bits ||| op, 254, len / 256 % 256, len % 256,
            m0, m1, m2, m3], ?_, ?_⟩
        · simp [write_header, Nat.not_lt.mpr hop, Nat.not_le.mpr hop8, writeU16BE,
            (show ¬len ≤ 125 by omega), (show len ≤ 65535 by omega),
            (show 126 ≤ len ∧ len ≤ 65535 by omega),
            (show len % 65536 = len from Nat.mod_eq_of_lt (by omega)), lor_128_126]
        · simp [read_header, ReaderState.new, fillBuf_two, fillBuf_four, hv16,
            byte0_and15 f op (by omega), byte0_truncate f op (by omega),
            and_254_127, mask_254,
            (show ¬len ≤ 125 by omega), Nat.not_le.mpr hop8]
      · have hv64 : readU64BE [len / 72057594037927936 % 256,
            len / 281474976710656 % 256, len / 1099511627776 % 256,
            len / 4294967296 % 256, len / 16777216 % 256, len / 65536 % 256,
            len / 256 % 256, len % 256] = len := by
          simp [readU64BE]; omega
        refine ⟨[f.bits ||| op, 255, len / 2 ^ 56 % 256, len / 2 ^ 48 % 256,
            len / 2 ^ 40 % 256, len / 2 ^ 32 % 256, len / 2 ^ 24 % 256,
            len / 2 ^ 16 % 256, len / 2 ^ 8 % 256, len % 256,
            m0, m1, m2, m3], ?_, ?_⟩
        · simp [write_header, Nat.not_lt.mpr hop, Nat.not_le.mpr hop8, writeU64BE,
            (show ¬len ≤ 125 by omega), (show ¬len ≤ 65535 by omega),
            (show ¬(126 ≤ len ∧ len ≤ 65535) by omega),
            (show 65535 < len by omega),
            (show len % 18446744073709551616 = len from Nat.mod_eq_of_lt (by omega)), lor_128_127]
        · simp [read_header, ReaderState.new, fillBuf_eight, fillBuf_four, hv64,
            byte0_and15 f op (by omega), byte0_truncate f op (by omega),
            and_255_127, mask_255,
            (show ¬len ≤ 65535 by omega), Nat.not_le.mpr hop8]

/-- Witness for C1: the repository's own complex test vector — a masked
binary frame with RSV1 set and 16-bit length 512 — round-trips. -/
theorem C1_codec_roundtrip_witness :
    ∃ bytes,
      write_header ⟨⟨false, true, false, false⟩, 2, some [2, 4, 8, 16], 512⟩ =
        .ok bytes ∧
      read_header bytes ReaderState.new =
        ⟨.ok ⟨⟨false, true, false, false⟩, 2, some [2, 4, 8, 16], 512⟩,
          ReaderState.new, []⟩ :=
  C1_codec_roundtrip ⟨⟨false, true, false, false⟩, 2, some [2, 4, 8, 16], 512⟩
    (by decide) (by decide)
    (by intro m hm; injection hm with he; subst he; decide)
    (by decide)

/-! ## C2: restartable parsing -/

/-- C2.  The resumable-parsing claim fails on the code: `read_header` never
consults the saved `len_byte` and re-reads the second header byte on every
call.  Concretely: the frame `0x82 0x7E 0x02 0x00` (FIN binary, 16-bit length
512) delivered as `[0x82, 0x7E]` then `[0x02, 0x00]`.  The first call stops
with a transient I/O error and the state correctly records `len_byte = 0x7E`;
but the resumed call reads `0x02` as a fresh length byte and returns a header
with `len = 2`, leaving `0x00` unconsumed, while the uninterrupted parse of
the same four bytes returns `len = 512`. -/
theorem C2_resume_rereads_length_byte :
    read_header [0x82, 0x7E] ReaderState.new =
      ⟨.error .IoError,
        { flags := some ⟨true, false, false, false⟩, opcode := some 2,
          has_mask := false, mask := [], raw_len := [], len_byte := some 0x7E,
          len := none }, []⟩ ∧
    read_header [0x02, 0x00]
        { flags := some ⟨true, false, false, false⟩, opcode := some 2,
          has_mask := false, mask := [], raw_len := [], len_byte := some 0x7E,
          len := none } =
      ⟨.ok ⟨⟨true, false, false, false⟩, 2, none, 2⟩, ReaderState.new, [0x00]⟩ ∧
    read_header [0x82, 0x7E, 0x02, 0x00] ReaderState.new =
      ⟨.ok ⟨⟨true, false, false, false⟩, 2, none, 512⟩, ReaderState.new, []⟩ ∧
    (2 : Nat) ≠ 512 := by
  refine ⟨by decide, by decide, by decide, by decide⟩

/-! ## C3: minimal-length rule -/

/-- C3.  Minimal-length rule: an extended 2-byte length ≤ 125 (indicator 126)
or an extended 8-byte length ≤ 65535 (indicator 127) makes `read_header`
return the "Invalid data frame length" `DataFrameError`, with the
`ReaderState` reset to empty and exactly the header bytes consumed. -/
theorem C3_minimal_length_rejected :
    (∀ b0 b1 e1 e2 rest, b1 &&& 0x7F = 126 → readU16BE [e1, e2] ≤ 125 →
      read_header (b0 :: b1 :: e1 :: e2 :: rest) ReaderState.new =
        ⟨.error (.DataFrameError "Invalid data frame length"),
          ReaderState.new, rest⟩) ∧
    (∀ b0 b1 e1 e2 e3 e4 e5 e6 e7 e8 rest, b1 &&& 0x7F = 127 →
      readU64BE [e1, e2, e3, e4, e5, e6, e7, e8] ≤ 65535 →
      read_header (b0 :: b1 :: e1 :: e2 :: e3 :: e4 :: e5 :: e6 :: e7 :: e8 :: rest)
          ReaderState.new =
        ⟨.error (.DataFrameError "Invalid data frame length"),
          ReaderState.new, rest⟩) := by
  constructor
  · intro b0 b1 e1 e2 rest h126 hval
    simp [read_header, ReaderState.new, fillBuf_two, h126, hval]
  · intro b0 b1 e1 e2 e3 e4 e5 e6 e7 e8 rest h127 hval
    simp [read_header, ReaderState.new, fillBuf_eight, h127, hval]

/-- Witness for C3 at concrete inputs: `0x7E` with extended length 5 and
`0xFF` (masked, indicator 127) with extended length 5. -/
theorem C3_minimal_length_witness :
    read_header [0x81, 0x7E, 0, 5, 9] ReaderState.new =
      ⟨.error (.DataFrameError "Invalid data frame length"),
        ReaderState.new, [9]⟩ ∧
    read_header [0x81, 0xFF, 0, 0, 0, 0, 0, 0, 0, 5, 9] ReaderState.new =
      ⟨.error (.DataFrameError "Invalid data frame length"),
        ReaderState.new, [9]⟩ :=
  ⟨C3_minimal_length_rejected.1 0x81 0x7E 0 5 [9] (by decide) (by decide),
   C3_minimal_length_rejected.2 0x81 0xFF 0 0 0 0 0 0 0 5 [9]
     (by decide) (by decide)⟩

/-! ## C4: control-frame constraints -/

/-- C4.  `write_header` errors with "Invalid data frame opcode" on any opcode
above 0x0F and with "Control frame length too long" on any control opcode
(8..15) with length above 125, in both cases emitting no bytes (the error is
returned before anything is written); symmetrically `read_header` errors on a
parsed control frame whose length exceeds 125 and on a control frame without
FIN ("Illegal fragmented control frame"), resetting its state. -/
theorem C4_control_constraints :
    (∀ h : DataFrameHeader, 15 < h.opcode →
      write_header h = .error (.DataFrameError "Invalid data frame opcode")) ∧
    (∀ h : DataFrameHeader, 8 ≤ h.opcode → h.opcode ≤ 15 → 125 < h.len →
      write_header h = .error (.DataFrameError "Control frame length too long")) ∧
    (∀ b0 b1 e1 e2 rest, 8 ≤ b0 &&& 0x0F → b1 &&& 0x7F = 126 →
      126 ≤ readU16BE [e1, e2] →
      read_header (b0 :: b1 :: e1 :: e2 :: rest) ReaderState.new =
        ⟨.error (.DataFrameError "Control frame length too long"),
          ReaderState.new, rest⟩) ∧
    (∀ b0 b1 e1 e2 e3 e4 e5 e6 e7 e8 rest, 8 ≤ b0 &&& 0x0F → b1 &&& 0x7F = 127 →
      65536 ≤ readU64BE [e1, e2, e3, e4, e5, e6, e7, e8] →
      read_header (b0 :: b1 :: e1 :: e2 :: e3 :: e4 :: e5 :: e6 :: e7 :: e8 :: rest)
          ReaderState.new =
        ⟨.error (.DataFrameError "Control frame length too long"),
          ReaderState.new, rest⟩) ∧
    (∀ b0 b1 rest, 8 ≤ b0 &&& 0x0F →
      (DataFrameFlags.fromBitsTruncate b0).fin = false → b1 &&& 0x7F ≤ 125 →
      read_header (b0 :: b1 :: rest) ReaderState.new =
        ⟨.error (.ProtocolError "Illegal fragmented control frame"),
          ReaderState.new, rest⟩) := by
  refine ⟨?_, ?_, ?_, ?_, ?_⟩
  · intro h hbad
    simp [write_header, hbad]
  · intro h h8 h15 h125
    simp [write_header, Nat.not_lt.mpr h15, h8, (show 126 ≤ h.len by omega)]
  · intro b0 b1 e1 e2 rest h8 h126 hval
    simp [read_header, ReaderState.new, fillBuf_two, h126, h8, hval,
      (show ¬readU16BE [e1, e2] ≤ 125 by omega)]
  · intro b0 b1 e1 e2 e3 e4 e5 e6 e7 e8 rest h8 h127 hval
    simp [read_header, ReaderState.new, fillBuf_eight, h127, h8,
      (show ¬readU64BE [e1, e2, e3, e4, e5, e6, e7, e8] ≤ 65535 by omega),
      (show 126 ≤ readU64BE [e1, e2, e3, e4, e5, e6, e7, e8] by omega)]
  · intro b0 b1 rest h8 hfin hb1
    simp [read_header, ReaderState.new, h8, hfin, hb1,
      (show ¬126 ≤ b1 &&& 0x7F by omega)]

/-- Witness for C4 at concrete inputs: opcode 16; Ping with length 126;
a wire Close frame announcing a 16-bit length 500; a wire Close frame
announcing a 64-bit length 70000; a FIN-less Ping. -/
theorem C4_control_constraints_witness :
    write_header ⟨⟨true, false, false, false⟩, 16, none, 0⟩ =
      .error (.DataFrameError "Invalid data frame opcode") ∧
    write_header ⟨⟨true, false, false, false⟩, 9, none, 126⟩ =
      .error (.DataFrameError "Control frame length too long") ∧
    read_header [0x88, 0x7E, 1, 244, 9] ReaderState.new =
      ⟨.error (.DataFrameError "Control frame length too long"),
        ReaderState.new, [9]⟩ ∧
    read_header [0x88, 0x7F, 0, 0, 0, 0, 0, 1, 17, 112, 9] ReaderState.new =
      ⟨.error (.DataFrameError "Control frame length too long"),
        ReaderState.new, [9]⟩ ∧
    read_header [0x09, 0x00, 9] ReaderState.new =
      ⟨.error (.ProtocolError "Illegal fragmented control frame"),
        ReaderState.new, [9]⟩ :=
  ⟨C4_control_constraints.1 ⟨⟨true, false, false, false⟩, 16, none, 0⟩ (by decide),
   C4_control_constraints.2.1 ⟨⟨true, false, false, false⟩, 9, none, 126⟩
     (by decide) (by decide) (by decide),
   C4_control_constraints.2.2.1 0x88 0x7E 1 244 [9] (by decide) (by decide) (by decide),
   C4_control_constraints.2.2.2.1 0x88 0x7F 0 0 0 0 0 1 17 112 [9]
     (by decide) (by decide) (by decide),
   C4_control_constraints.2.2.2.2 0x09 0x00 [9] (by decide) (by decide) (by decide)⟩

/-! ## C5: RSV bits are not enforced -/

/-- C5 counterexample.  The claim says a frame with an RSV bit set is
rejected with a protocol error; in fact `read_header` accepts the frame
`0xC1 0x00` (FIN ∧ RSV1, opcode 1, empty payload) and returns a header
carrying RSV1. -/
theorem C5_rsv_counterexample :
    (read_header [0xC1, 0x00] ReaderState.new).result =
      .ok ⟨⟨true, true, false, false⟩, 1, none, 0⟩ := by decide

/-- C5 amended.  `read_header` performs no RSV enforcement: a frame whose
first byte carries any combination of RSV1/RSV2/RSV3 parses successfully and
the returned header reports exactly those bits. -/
theorem C5_rsv_passthrough (f : DataFrameFlags) (b1 : Nat) (hb1 : b1 ≤ 125) :
    read_header [f.bits ||| 1, b1] ReaderState.new =
      ⟨.ok ⟨f, 1, none, b1⟩, ReaderState.new, []⟩ := by
  simp [read_header, ReaderState.new,
    byte0_and15 f 1 (by omega), byte0_truncate f 1 (by omega),
    and127_small b1 (by omega), and128_small b1 (by omega), hb1]

/-- Witness for C5 amended: all three RSV bits set, opcode 1, length 0. -/
theorem C5_rsv_passthrough_witness :
    read_header [DataFrameFlags.bits ⟨true, true, true, true⟩ ||| 1, 0]
        ReaderState.new =
      ⟨.ok ⟨⟨true, true, true, true⟩, 1, none, 0⟩, ReaderState.new, []⟩ :=
  C5_rsv_passthrough ⟨true, true, true, true⟩ 0 (by decide)

/-! ## C6: exact header encoding -/

/-- C6.  For every header accepted by `write_header`, the emitted bytes are:
byte 0 = flag bits plus opcode (the two are disjoint, so OR equals addition);
byte 1 = 128·(mask present) plus the length indicator (the length itself if
≤ 125, 126 if ≤ 65535, 127 otherwise); then the 2-byte big-endian length when
the indicator is 126, the 8-byte big-endian length when it is 127, then the 4
mask bytes verbatim; and in particular a FIN text frame of length 5,
unmasked, encodes as `0x81 0x05`. -/
theorem C6_header_encoding :
    (∀ h : DataFrameHeader, h.opcode ≤ 15 → (8 ≤ h.opcode → h.len ≤ 125) →
      h.len < 2 ^ 64 →
      write_header h = .ok
        ((h.flags.bits + h.opcode) ::
         ((if h.mask.isSome then 128 else 0) +
          (if h.len ≤ 125 then h.len
           else if h.len ≤ 65535 then 126 else 127)) ::
         ((if h.len ≤ 125 then []
           else if h.len ≤ 65535 then [h.len / 256 % 256, h.len % 256]
           else [h.len / 2 ^ 56 % 256, h.len / 2 ^ 48 % 256,
                 h.len / 2 ^ 40 % 256, h.len / 2 ^ 32 % 256,
                 h.len / 2 ^ 24 % 256, h.len / 2 ^ 16 % 256,
                 h.len / 2 ^ 8 % 256, h.len % 256]) ++ h.mask.getD []))) ∧
    write_header ⟨⟨true, false, false, false⟩, 1, none, 5⟩ = .ok [0x81, 0x05] := by
  constructor
  · intro h hop hctl hlen
    obtain ⟨f, op, mask, len⟩ := h
    dsimp only at hop hctl hlen ⊢
    have hwctl : ¬(8 ≤ op ∧ 126 ≤ len) := fun ⟨h8, h126⟩ => by
      have := hctl h8; omega
    rcases Nat.lt_or_ge len 126 with hsmall | hbig1
    · rcases mask with _ | m <;>
        simp [write_header, Nat.not_lt.mpr hop, hwctl,
          byte0_lor_eq_add f op (by omega),
          (show len ≤ 125 by omega),
          (show ¬(126 ≤ len ∧ len ≤ 65535) by omega),
          (show ¬(65535 < len) by omega),
          lor128_eq_add len (by omega), zero_lor_nat]
    · have hop8 : op < 8 := by
        rcases Nat.lt_or_ge op 8 with h8 | h8
        · exact h8
        · have := hctl h8; omega
      rcases Nat.lt_or_ge len 65536 with hmid | hbig <;> rcases mask with _ | m <;>
        simp [write_header, Nat.not_lt.mpr hop, Nat.not_le.mpr hop8,
          byte0_lor_eq_add f op (by omega), writeU16BE, writeU64BE,
          (show ¬len ≤ 125 by omega), zero_lor_nat, lor_128_126, lor_128_127] <;>
        first
          | (simp [(show len ≤ 65535 by omega),
              (show 126 ≤ len ∧ len ≤ 65535 by omega),
              (show len % 65536 = len from Nat.mod_eq_of_lt (by omega))])
          | (simp [(show ¬len ≤ 65535 by omega),
              (show ¬(126 ≤ len ∧ len ≤ 65535) by omega),
              (show 65535 < len by omega),
              (show len % 18446744073709551616 = len from
                Nat.mod_eq_of_lt (by omega))])
  · decide

/-- Witness for C6: a masked binary frame with 16-bit length 512 (the
repository's own test vector) evaluates to the described bytes. -/
theorem C6_header_encoding_witness :
    write_header ⟨⟨false, true, false, false⟩, 2, some [2, 4, 8, 16], 512⟩ =
      .ok [(DataFrameFlags.bits ⟨false, true, false, false⟩ + 2), 128 + 126,
           512 / 256 % 256, 512 % 256, 2, 4, 8, 16] :=
  C6_header_encoding.1 ⟨⟨false, true, false, false⟩, 2, some [2, 4, 8, 16], 512⟩
    (by decide) (by decide) (by decide)

/-! ## C7: control-frame validation happens before the mask is read -/

/-- C7 counterexample.  The claim says the 4 masking-key bytes are consumed
before control-frame validation; in fact on the masked FIN-less Ping frame
`0x09 0x81` followed by mask bytes `1 2 3 4`, `read_header` errors with the
mask bytes still unconsumed. -/
theorem C7_stage_order_counterexample :
    read_header [0x09, 0x81, 1, 2, 3, 4] ReaderState.new =
      ⟨.error (.ProtocolError "Illegal fragmented control frame"),
        ReaderState.new, [1, 2, 3, 4]⟩ ∧
    (read_header [0x09, 0x81, 1, 2, 3, 4] ReaderState.new).rest ≠ [] := by
  refine ⟨by decide, by decide⟩

/-- C7 amended.  `read_header` validates the control-frame constraints
before reading the masking key: on any masked control frame that is FIN-less
(length ≤ 125) or that announces a too-long payload, the error is returned
with the trailing bytes — including the 4 mask bytes — left unconsumed. -/
theorem C7_validation_before_mask :
    (∀ b0 b1 rest, 8 ≤ b0 &&& 0x0F → ((b1 &&& 0x80 == 0x80) = true) →
      (DataFrameFlags.fromBitsTruncate b0).fin = false → b1 &&& 0x7F ≤ 125 →
      read_header (b0 :: b1 :: rest) ReaderState.new =
        ⟨.error (.ProtocolError "Illegal fragmented control frame"),
          ReaderState.new, rest⟩) ∧
    (∀ b0 e1 e2 rest, 8 ≤ b0 &&& 0x0F → 126 ≤ readU16BE [e1, e2] →
      read_header (b0 :: 0xFE :: e1 :: e2 :: rest) ReaderState.new =
        ⟨.error (.DataFrameError "Control frame length too long"),
          ReaderState.new, rest⟩) := by
  constructor
  · intro b0 b1 rest h8 _hmaskbit hfin hb1
    simp [read_header, ReaderState.new, h8, hfin, hb1,
      (show ¬126 ≤ b1 &&& 0x7F by omega)]
  · intro b0 e1 e2 rest h8 hval
    simp [read_header, ReaderState.new, fillBuf_two, and_254_127, mask_254, h8,
      hval, (show ¬readU16BE [e1, e2] ≤ 125 by omega)]

/-- Witness for C7 amended: a masked FIN-less Ping and a masked Close with
announced length 500; in both cases the four mask bytes stay in the stream. -/
theorem C7_validation_before_mask_witness :
    read_header [0x09, 0x80, 1, 2, 3, 4] ReaderState.new =
      ⟨.error (.ProtocolError "Illegal fragmented control frame"),
        ReaderState.new, [1, 2, 3, 4]⟩ ∧
    read_header [0x88, 0xFE, 1, 244, 1, 2, 3, 4] ReaderState.new =
      ⟨.error (.DataFrameError "Control frame length too long"),
        ReaderState.new, [1, 2, 3, 4]⟩ :=
  ⟨C7_validation_before_mask.1 0x09 0x80 [1, 2, 3, 4]
     (by decide) (by decide) (by decide) (by decide),
   C7_validation_before_mask.2 0x88 1 244 [1, 2, 3, 4] (by decide) (by decide)⟩

/-! ## C8: outbound fragmentation -/

/-- C8.  A fragmenting session `send_fragment m; send_fragment*(ms); finish
final` on a fresh serializer emits: first the frame for `m` with its own
opcode and FIN unset, then one Continuation frame with FIN unset per message
of `ms`, then a terminal Continuation frame with FIN set; `send_message`
alone emits a single frame with FIN set and the message's own opcode. -/
theorem C8_outbound_fragmentation (mask : Bool) (key : List Nat)
    (m final : WebSocketMessage) (ms : List WebSocketMessage) :
    fragment_session mask key (m :: ms) final =
      message_to_dataframe m mask false key ::
        (ms.map fun mi =>
          { message_to_dataframe mi mask false key with
              opcode := WebSocketOpcode.Continuation }) ++
        [{ message_to_dataframe final mask true key with
            opcode := WebSocketOpcode.Continuation }] ∧
    (message_to_dataframe m mask false key).opcode = messageOpcode m ∧
    (message_to_dataframe m mask false key).finished = false ∧
    (∀ mi, ({ message_to_dataframe mi mask false key with
        opcode := WebSocketOpcode.Continuation }).finished = false) ∧
    ({ message_to_dataframe final mask true key with
        opcode := WebSocketOpcode.Continuation }).finished = true ∧
    (send_message m mask key).finished = true ∧
    (send_message m mask key).opcode = messageOpcode m := by
  refine ⟨?_, ?_, ?_, ?_, ?_, ?_, ?_⟩
  · simp [fragment_session, run_send_fragments, send_fragment,
      run_send_fragments_started, finish]
  · simp [message_to_dataframe]
  · simp [message_to_dataframe]
  · intro mi; simp [message_to_dataframe]
  · simp [message_to_dataframe]
  · simp [send_message, message_to_dataframe]
  · simp [send_message, message_to_dataframe]

/-! ## C9: the frame stores masked, not plaintext, data -/

/-- C9 counterexample.  The claim says the frame's `data` field always holds
the plaintext payload; in fact for message `Binary [0x41]` with masking on
and key `[1, 0, 0, 0]`, `message_to_dataframe` stores `[0x40]`, which is not
the payload. -/
theorem C9_mask_counterexample :
    (message_to_dataframe (.Binary [0x41]) true true [1, 0, 0, 0]).data =
      [0x40] ∧
    (message_to_dataframe (.Binary [0x41]) true true [1, 0, 0, 0]).data ≠
      messagePayload (.Binary [0x41]) := by
  refine ⟨by decide, by decide⟩

/-- C9 amended.  The frame built by `message_to_dataframe` stores the
payload verbatim only when masking is off; when masking is on it stores the
payload already XOR-masked with the generated key (the mask is applied at
frame construction, not at the wire boundary). -/
theorem C9_data_field (m : WebSocketMessage) (finished : Bool) (key : List Nat) :
    (message_to_dataframe m false finished key).data = messagePayload m ∧
    (message_to_dataframe m false finished key).mask = none ∧
    (message_to_dataframe m true finished key).data =
      mask_data key (messagePayload m) ∧
    (message_to_dataframe m true finished key).mask = some key := by
  simp [message_to_dataframe]

/-! ## C10: the server iterator stops at the first failed accept -/

/-- C10.  `Iterator::next` returns `Some` exactly when `accept` succeeded
end-to-end (TCP accept, TLS accept, WebSocket upgrade all `Ok`), returns
`None` on any accept error (discarding the error details), the plain server
is the secure one with an always-succeeding TLS stage, and a `for` loop over
successive accept outcomes stops at the first failure, discarding every
connection after it. -/
theorem C10_server_iterator :
    (∀ {T S P E U : Type} (tcpAccept : Except E T) (sslAccept : T → Except E S)
        (intoWs : S → Except (S × Option P × E) U) (u : U),
      server_next tcpAccept sslAccept intoWs = some u ↔
        accept tcpAccept sslAccept intoWs = .ok u) ∧
    (∀ {T S P E U : Type} (tcpAccept : Except E T) (sslAccept : T → Except E S)
        (intoWs : S → Except (S × Option P × E) U) (u : U),
      accept tcpAccept sslAccept intoWs = .ok u ↔
        ∃ t s, tcpAccept = .ok t ∧ sslAccept t = .ok s ∧ intoWs s = .ok u) ∧
    (∀ {T S P E U : Type} (tcpAccept : Except E T) (sslAccept : T → Except E S)
        (intoWs : S → Except (S × Option P × E) U)
        (i : InvalidConnection S P E),
      accept tcpAccept sslAccept intoWs = .error i →
        server_next tcpAccept sslAccept intoWs = none) ∧
    (∀ {T P E U : Type} (tcpAccept : Except E T)
        (intoWs : T → Except (T × Option P × E) U),
      accept_plain tcpAccept intoWs = accept tcpAccept Except.ok intoWs) ∧
    (∀ {I U : Type} (good : List (Except I U)) (i : I)
        (more : List (Except I U)),
      (∀ r ∈ good, ∃ u, r = .ok u) →
      iterate_server (good ++ .error i :: more) =
        good.filterMap Except.toOption) := by
  refine ⟨?_, ?_, ?_, ?_, ?_⟩
  · intro T S P E U tcpAccept sslAccept intoWs u
    rcases tcpAccept with e | t
    · simp [server_next, accept, Except.toOption]
    · rcases hs : sslAccept t with e | s
      · simp [server_next, accept, hs, Except.toOption]
      · rcases hw : intoWs s with p | u'
        · rcases p with ⟨s', r, e⟩
          simp [server_next, accept, hs, hw, Except.toOption]
        · simp [server_next, accept, hs, hw, Except.toOption]
  · intro T S P E U tcpAccept sslAccept intoWs u
    rcases tcpAccept with e | t
    · simp [accept]
    · rcases hs : sslAccept t with e | s
      · simp [accept, hs]
      · rcases hw : intoWs s with p | u'
        · rcases p with ⟨s', r, e⟩
          simp [accept, hs, hw]
        · simp [accept, hs, hw]
  · intro T S P E U tcpAccept sslAccept intoWs i hi
    simp [server_next, hi, Except.toOption]
  · intro T P E U tcpAccept intoWs
    rcases tcpAccept with e | t <;> simp [accept_plain, accept]
  · intro I U good i more hgood
    induction good with
    | nil => simp [iterate_server, Except.toOption]
    | cons a rest ih =>
      obtain ⟨u, rfl⟩ := hgood a (by simp)
      simp [iterate_server, Except.toOption, ih fun r hr => hgood r (by simp [hr])]

/-- Witness for C10: a success converted through `next`, and an iteration
over ok 5, an error, then ok 7, which keeps only the 5. -/
theorem C10_server_iterator_witness :
    server_next (T := Nat) (S := Nat) (P := Nat) (E := Nat) (U := Nat)
        (.ok 0) (fun t => .ok t) (fun s => .ok (s + 1)) = some 1 ∧
    iterate_server [Except.ok 5, Except.error (0 : Nat), Except.ok 7] =
      [(5 : Nat)] := by
  constructor
  · exact (C10_server_iterator.1 (.ok 0) (fun t => .ok t)
      (fun s => .ok (s + 1)) 1).mpr rfl
  · have h := C10_server_iterator.2.2.2.2 [Except.ok (5 : Nat)] (0 : Nat)
      [Except.ok 7] ?_
    · simpa using h
    · intro r hr
      simp only [List.mem_singleton] at hr
      exact ⟨5, hr⟩

end WS

/-!
## Sanity: the repository's own header unit tests hold in the embedding
(`test_read_header_simple`, `test_write_header_simple`,
`test_read_header_complex`, `test_write_header_complex`).
-/

theorem WS.test_write_header_simple :
    WS.write_header ⟨⟨true, false, false, false⟩, 1, none, 43⟩ =
      .ok [0x81, 0x2B] := by decide

theorem WS.test_read_header_simple :
    (WS.read_header [0x81, 0x2B] WS.ReaderState.new).result =
      .ok ⟨⟨true, false, false, false⟩, 1, none, 43⟩ := by decide

theorem WS.test_write_header_complex :
    WS.write_header ⟨⟨false, true, false, false⟩, 2, some [2, 4, 8, 16], 512⟩ =
      .ok [0x42, 0xFE, 0x02, 0x00, 0x02, 0x04, 0x08, 0x10] := by decide

theorem WS.test_read_header_complex :
    (WS.read_header [0x42, 0xFE, 0x02, 0x00, 0x02, 0x04, 0x08, 0x10]
        WS.ReaderState.new).result =
      .ok ⟨⟨false, true, false, false⟩, 2, some [2, 4, 8, 16], 512⟩ := by decide
